import Mathlib

/-!
# CareCompanion — shallow embedding of the coordination / emergency core

This file embeds, as executable Lean definitions, the aggregation and
escalation core of the CareCompanion multi-agent elder-care system:

* `src/agents/emergency_response.py` — the per-user emergency state machine
  (`handle_emergency`, `resolve_emergency`, the periodic escalation tick);
* `src/agents/coordination.py` — the per-user context, overall-status
  derivation, alert merging and `resolve_alert`;
* `src/agents/health_monitor.py` — health alert generation and personalized
  thresholds;
* the safety-data path through `CoordinationAgent._process_safety_data`
  for a fresh user (the analyzer holds no records for the user).

Timestamps (`datetime.now()`) are modelled as natural numbers counting
seconds; `isoformat` / `strftime('%Y%m%d%H%M%S')` renderings, which the code
only ever compares for equality at one-second granularity, are modelled by
decimal rendering of that second counter.  Python dictionaries with a fixed
field vocabulary become structures with `Option` fields for keys that may be
absent; the free-form `details` payload of an emergency, which the code reads
with `.get` and scans with substring search, is an association list of
string pairs.  Audit-only side effects (database inserts, log lines, LLM
narrative, caregiver notification records) are not part of the model: no
claim below mentions them and the code never branches on them.
-/

namespace CareCompanion

/-- Python truthiness of an optional string (`None` and `""` are falsy). -/
def truthyStr : Option String → Bool
  | some s => s ≠ ""
  | none => false

/-- Python truthiness of an optional integer (`None` and `0` are falsy). -/
def truthyInt : Option Int → Bool
  | some v => v ≠ 0
  | none => false

/-- `pat` occurs as a substring of `s` (used for Python's `in` on strings).
For a nonempty pattern, `s.splitOn pat` has at least two pieces exactly when
the pattern occurs. -/
def strContains (s pat : String) : Bool :=
  (s.splitOn pat).length ≥ 2

/-- The `details` dict of an emergency: a string-keyed, string-valued record,
read via `.get(key, default)` and rendered via `str(...)` for the
`"critical" in str(details).lower()` scan. -/
def EDetails := List (String × String)

instance : DecidableEq EDetails := inferInstanceAs (DecidableEq (List (String × String)))

/-- `details.get(key, default)` — first binding wins, as in a Python dict
(the association lists we build have distinct keys). -/
def detailsGet (d : EDetails) (key dflt : String) : String :=
  match d.find? (fun kv => kv.1 = key) with
  | some kv => kv.2
  | none => dflt

/-- `"critical" in str(details).lower()`: since `"critical"` contains no
quote, colon, comma or brace, it occurs in the rendered dict exactly when it
occurs in some key or value (lower-cased). -/
def detailsHasCritical (d : EDetails) : Bool :=
  d.any (fun kv => strContains kv.1.toLower "critical" || strContains kv.2.toLower "critical")

/-- An alert dict as produced by the domain agents and stored in the
coordination context (`src/agents/health_monitor.py`,
`src/agents/safety_guardian.py`).  Fields that a given producer does not set
are `none`; `id` is read by `CoordinationAgent.resolve_alert` via
`alert.get("id")`. -/
structure Alert where
  id : Option String := none
  timestamp : Nat := 0
  level : String := ""
  type : String := ""
  message : String := ""
  location : Option String := none
  impact_force : Option String := none
  post_fall_inactivity : Option Int := none
  value : Option Int := none
  threshold : Option Int := none
  comparison : Option String := none
  deriving DecidableEq, Repr

/-- An emergency record (`EmergencyResponseAgent.handle_emergency` builds
these; `resolved` / `resolution_details` / `resolution_time` are filled on
resolution).  Times are second counters. -/
structure Emergency where
  id : String
  user_id : String
  type : String
  details : EDetails
  location : String
  created_at : Nat
  last_escalation : Nat
  escalation_level : Nat
  resolved : Bool
  resolution_details : Option String
  resolution_time : Option Nat
  deriving DecidableEq

/-- `f"{user_id}_{type}_{now.strftime('%Y%m%d%H%M%S')}"` — the strftime
rendering is injective per second and is modelled by decimal rendering of
the second counter. -/
def emergencyId (user_id ty : String) (now : Nat) : String :=
  user_id ++ "_" ++ ty ++ "_" ++ toString now

/-- State of the Emergency Response Agent: one optional active emergency and
one history list per user (`self.active_emergencies` /
`self.emergency_history`, both keyed by user id, defaulting to
`None` / `[]` after lazy initialization). -/
structure ERState where
  active : String → Option Emergency
  history : String → List Emergency

/-- The agent's state right after construction: no user has an active
emergency or history. -/
def erInit : ERState :=
  { active := fun _ => none, history := fun _ => [] }

/-- Pointwise update of a user-keyed map. -/
def setUser {α : Type} (m : String → α) (u : String) (v : α) : String → α :=
  fun x => if x = u then v else m x

/-- `EmergencyResponseAgent._escalate_emergency`: set the new level and reset
the escalation clock (the notification action taken per level is an audit
side effect). -/
def escalate_emergency (e : Emergency) (new_level : Nat) (now : Nat) : Emergency :=
  { e with escalation_level := new_level, last_escalation := now }

/-- The severe-emergency condition of
`EmergencyResponseAgent._initial_emergency_response`: a fall whose details
carry `impact_force_level == "high"`, or a health emergency whose details
render contains `"critical"`. -/
def severe_condition (ty : String) (d : EDetails) : Bool :=
  (ty = "fall" && detailsGet d "impact_force_level" "medium" = "high")
    || (ty = "health" && detailsHasCritical d)

/-- `EmergencyResponseAgent._initial_emergency_response`, restricted to its
state effect: caregivers are notified (audit only), and for severe
emergencies the record is immediately escalated to level 2. -/
def initial_emergency_response (e : Emergency) (now : Nat) : Emergency :=
  if severe_condition e.type e.details then escalate_emergency e 2 now else e

/-- `EmergencyResponseAgent.handle_emergency` for a given user: build a fresh
record; if an active emergency of the same type exists, carry over its
`escalation_level` and `last_escalation`; if one of a different type exists,
force-resolve it (`"Superseded by new emergency"`) into history; then store
the new record and run the initial response on it.  Returns the new state
and the stored emergency. -/
def handle_emergency (s : ERState) (user_id ty : String) (d : EDetails)
    (loc : String) (now : Nat) : ERState × Emergency :=
  let fresh : Emergency :=
    { id := emergencyId user_id ty now
      user_id := user_id
      type := ty
      details := d
      location := loc
      created_at := now
      last_escalation := now
      escalation_level := 1
      resolved := false
      resolution_details := none
      resolution_time := none }
  match s.active user_id with
  | some old =>
      if old.type = fresh.type then
        let e := initial_emergency_response
          { fresh with escalation_level := old.escalation_level
                       last_escalation := old.last_escalation } now
        ({ s with active := setUser s.active user_id (some e) }, e)
      else
        let old' := { old with resolved := true
                               resolution_details := some "Superseded by new emergency"
                               resolution_time := some now }
        let e := initial_emergency_response fresh now
        ({ active := setUser s.active user_id (some e)
           history := setUser s.history user_id (s.history user_id ++ [old']) }, e)
  | none =>
      let e := initial_emergency_response fresh now
      ({ s with active := setUser s.active user_id (some e) }, e)

/-- `EmergencyResponseAgent.resolve_emergency`: error if no active emergency;
error if a truthy id is supplied and does not match; otherwise mark resolved,
move to history, clear the active slot.  The soft-error dict becomes
`Except.error`. -/
def resolve_emergency (s : ERState) (user_id : String) (eid : Option String)
    (resolution : Option String) (now : Nat) : ERState × Except String Emergency :=
  match s.active user_id with
  | none =>
      (s, Except.error ("No active emergency found for user " ++ user_id))
  | some act =>
      if truthyStr eid && act.id ≠ eid.getD "" then
        (s, Except.error ("Emergency ID does not match active emergency " ++ act.id))
      else
        let act' := { act with resolved := true
                               resolution_time := some now
                               resolution_details := some (resolution.getD "Manually resolved") }
        ({ active := setUser s.active user_id none
           history := setUser s.history user_id (s.history user_id ++ [act']) },
         Except.ok act')

/-- `(now - last_escalation).total_seconds() / 60` as an exact rational
(Python computes this in floats; all comparisons the code makes are against
the integer 5, far from any rounding boundary). -/
def minutes_since (now last : Nat) : ℚ :=
  ((now : ℚ) - (last : ℚ)) / 60

/-- `EmergencyResponseAgent._check_emergency_escalation`: escalate 1→2 or
2→3 once at least 5 minutes passed since `last_escalation`; level 3 (and any
other level) is left alone. -/
def check_emergency_escalation (e : Emergency) (now : Nat) : Emergency :=
  if e.escalation_level = 1 ∧ 5 ≤ minutes_since now e.last_escalation then
    escalate_emergency e 2 now
  else if e.escalation_level = 2 ∧ 5 ≤ minutes_since now e.last_escalation then
    escalate_emergency e 3 now
  else e

/-- One user's slice of `EmergencyResponseAgent.update`: a resolved active
emergency is moved to history (capped at 20) and the slot cleared; an
unresolved one goes through the escalation check. -/
def tick_user (s : ERState) (user_id : String) (now : Nat) : ERState :=
  match s.active user_id with
  | none => s
  | some e =>
      if e.resolved then
        let h := s.history user_id ++ [e]
        let h := if h.length > 20 then h.drop (h.length - 20) else h
        { active := setUser s.active user_id none
          history := setUser s.history user_id h }
      else
        { s with active := setUser s.active user_id (some (check_emergency_escalation e now)) }

/-- The operations that drive the emergency agent's state between
observations. -/
inductive EROp where
  | handle (user_id ty : String) (d : EDetails) (loc : String) (now : Nat)
  | resolve (user_id : String) (eid : Option String) (resolution : Option String) (now : Nat)
  | tick (user_id : String) (now : Nat)

/-- Apply one operation to the agent state. -/
def applyOp (s : ERState) : EROp → ERState
  | EROp.handle u ty d loc now => (handle_emergency s u ty d loc now).1
  | EROp.resolve u eid r now => (resolve_emergency s u eid r now).1
  | EROp.tick u now => tick_user s u now

/-- Run a sequence of operations from a state. -/
def runOps (s : ERState) (ops : List EROp) : ERState :=
  ops.foldl applyOp s

/-! ## Coordination Agent (`src/agents/coordination.py`) -/

/-- A per-user context owned by the Coordination Agent
(`CoordinationAgent._initialize_user_context` fixes this shape). -/
structure UserContext where
  user_id : String
  last_update : Nat
  health_status : String
  safety_status : String
  reminder_status : String
  social_status : String
  emergency_status : String
  current_location : String
  current_activity : String
  alerts : List Alert
  recommendations : List String
  overall_status : String
  deriving DecidableEq

/-- `CoordinationAgent._determine_overall_status`: emergency wins, then any
`"alert"`, then any `"attention"`, then `"normal"` when every status that is
not `"unknown"` is `"normal"` (Python's `all` over a filtered generator —
vacuously true when everything is `"unknown"`), else `"unknown"`. -/
def determine_overall_status (ctx : UserContext) : String :=
  if ctx.emergency_status ≠ "none" then "emergency"
  else
    let statuses := [ctx.health_status, ctx.safety_status, ctx.reminder_status,
      ctx.social_status]
    if "alert" ∈ statuses then "alert"
    else if "attention" ∈ statuses then "attention"
    else if ∀ st ∈ statuses, st ≠ "unknown" → st = "normal" then "normal"
    else "unknown"

/-- The alert-merging step used throughout `coordination.py`:
`if alert not in context["alerts"]: context["alerts"].append(alert)` —
deduplication by full value equality. -/
def mergeAlert (alerts : List Alert) (a : Alert) : List Alert :=
  if a ∈ alerts then alerts else alerts ++ [a]

/-- Remove the first alert whose `id` field equals the given id, mirroring
the indexed linear scan with `pop(i)` and `break` in
`CoordinationAgent.resolve_alert`; `none` when no alert matches
(`alert.get("id") == alert_id` is false for id-less alerts). -/
def removeFirstAlertById : List Alert → String → Option (List Alert)
  | [], _ => none
  | a :: rest, aid =>
      if a.id = some aid then some rest
      else (removeFirstAlertById rest aid).map (fun l => a :: l)

/-- `CoordinationAgent.resolve_alert` for a known user: linear search by id;
soft error (context untouched) when the id is absent; on success remove that
alert, recompute the overall status and stamp `last_update`.  The database
event is audit only. -/
def resolve_alert (ctx : UserContext) (alert_id : String) (now : Nat) :
    UserContext × Except String String :=
  match removeFirstAlertById ctx.alerts alert_id with
  | none =>
      (ctx, Except.error ("Alert " ++ alert_id ++ " not found for user " ++ ctx.user_id))
  | some alerts' =>
      let ctx' := { ctx with alerts := alerts' }
      let ctx' := { ctx' with overall_status := determine_overall_status ctx'
                              last_update := now }
      (ctx', Except.ok ("Alert " ++ alert_id ++ " resolved successfully"))

/-! ## The safety-data path for a fresh user

`CoordinationAgent._process_safety_data` forwards the reading to
`SafetyGuardianAgent.process_safety_data` and merges the result.  For a
*fresh* user — one with no rows in the analyzer's CSV data —
`analyzer.analyze_safety_data` returns a soft error, so the safety agent
falls back to the simplified analysis built from the reading itself, its
history buffers start empty (so the movement-pattern and limited-mobility
branches of `_generate_safety_alerts` do not fire), and
`analyzer.get_comprehensive_user_status` reports no concerns, i.e.
`overall_status == "normal"` with `health`/`safety`/`reminders` all `None`.
The definitions below are those code paths, specialized to that fresh-user
analyzer behaviour. -/

/-- An inbound safety reading (the `data` dict of a `type == "safety"`
message, shaped by `app.py` from the safety CSV). -/
structure SafetyReading where
  fall_detected : Option String := none
  location : Option String := none
  impact_force : Option String := none
  post_fall_inactivity : Option Int := none
  movement_activity : Option String := none
  deriving DecidableEq

/-- The raw reading as the `details` dict that
`CoordinationAgent._process_safety_data` hands to the Emergency Agent
(`"details": data.get("data", {})`) — note the key is `impact_force`, not
`impact_force_level`. -/
def SafetyReading.toDetails (r : SafetyReading) : EDetails :=
  (match r.fall_detected with | some v => [("fall_detected", v)] | none => [])
    ++ (match r.location with | some v => [("location", v)] | none => [])
    ++ (match r.impact_force with | some v => [("impact_force", v)] | none => [])
    ++ (match r.post_fall_inactivity with
        | some v => [("post_fall_inactivity", toString v)] | none => [])
    ++ (match r.movement_activity with | some v => [("movement_activity", v)] | none => [])

/-- `SafetyGuardianAgent._is_unusual_activity`: false when activity or
location is falsy or the room has no expected-activity list; otherwise true
when the activity is not among the expected ones.  `roomExpected` abstracts
`self.room_settings[room].get("expected_activities", [])` (empty for rooms
not in the config). -/
def is_unusual_activity (roomExpected : String → List String)
    (activity location : Option String) : Bool :=
  if !(truthyStr activity) || !(truthyStr location) then false
  else
    let expected := roomExpected ((location.getD "").toLower)
    if expected.isEmpty then false
    else !(expected.contains (activity.getD ""))

/-- The simplified analysis `SafetyGuardianAgent._analyze_safety_data` builds
when the analyzer has no data for the user. -/
structure SafetyAnalysis where
  current_location : String
  current_activity : String
  latest_fall : Bool
  safety_status : String
  deriving DecidableEq

/-- Fallback branch of `SafetyGuardianAgent._analyze_safety_data`. -/
def analyze_safety_data_fresh (r : SafetyReading) : SafetyAnalysis :=
  { current_location := r.location.getD "unknown"
    current_activity := r.movement_activity.getD "unknown"
    latest_fall := r.fall_detected.getD "No" = "Yes"
    safety_status := "normal" }

/-- `SafetyGuardianAgent._generate_safety_alerts` for a fresh user: the
fall-detected and unusual-activity branches (the fallback analysis carries no
`movement_counts` and the location history is too short for the
limited-mobility branch). -/
def generate_safety_alerts_fresh (roomExpected : String → List String)
    (r : SafetyReading) (now : Nat) : List Alert :=
  (if r.fall_detected.getD "No" = "Yes" then
    [{ timestamp := now
       level := "urgent"
       type := "fall_detected"
       message := "Fall detected in " ++ r.location.getD "unknown"
       location := r.location
       impact_force := some (r.impact_force.getD "-")
       post_fall_inactivity := some (r.post_fall_inactivity.getD 0) }]
  else [])
  ++ (if is_unusual_activity roomExpected r.movement_activity r.location then
    [{ timestamp := now
       level := "info"
       type := "unusual_activity"
       message := "Unusual activity detected: " ++ r.movement_activity.getD ""
         ++ " in " ++ r.location.getD ""
       location := r.location }]
  else [])

/-- `CoordinationAgent._initialize_user_context` for a fresh user: every
domain status `"unknown"`, no emergency, empty alert and recommendation
lists; `analyzer.get_comprehensive_user_status` finds no records, hence no
concerns, hence it overwrites `overall_status` with `"normal"` while leaving
the `None` domain sections untouched. -/
def initialize_user_context_fresh (user_id : String) (now : Nat) : UserContext :=
  { user_id := user_id
    last_update := now
    health_status := "unknown"
    safety_status := "unknown"
    reminder_status := "unknown"
    social_status := "unknown"
    emergency_status := "none"
    current_location := "unknown"
    current_activity := "unknown"
    alerts := []
    recommendations := []
    overall_status := "normal" }

/-- `CoordinationAgent._process_safety_data` for a fresh user: run the safety
agent (always `"success"` here), copy `safety_status` / location / activity
from its analysis, merge its alerts (deduplicated), forward an emergency —
type `"fall"` when the reading says `fall_detected == "Yes"`, details the raw
reading dict — when the agent flags one, then recompute the overall status
and stamp `last_update`.  Note that the context's `emergency_status` field is
not written on this path. -/
def process_safety_data_fresh (roomExpected : String → List String)
    (ctx : UserContext) (er : ERState) (user_id : String) (r : SafetyReading)
    (now : Nat) : UserContext × ERState :=
  let analysis := analyze_safety_data_fresh r
  let alerts := generate_safety_alerts_fresh roomExpected r now
  let is_fall := r.fall_detected.getD "No" = "Yes"
  let emergency := is_fall || alerts.any (fun a => a.level = "urgent")
  let ctx := { ctx with safety_status := analysis.safety_status
                        current_location := analysis.current_location
                        current_activity := analysis.current_activity
                        alerts := alerts.foldl mergeAlert ctx.alerts }
  let er :=
    if emergency then
      (handle_emergency er user_id (if is_fall then "fall" else "safety")
        r.toDetails (r.location.getD "unknown") now).1
    else er
  let ctx := { ctx with overall_status := determine_overall_status ctx
                        last_update := now }
  (ctx, er)

/-- The §8 end-to-end scenario reading:
`{fall_detected: "Yes", location: "Bathroom", impact_force: "High"}`. -/
def bathroomFallReading : SafetyReading :=
  { fall_detected := some "Yes"
    location := some "Bathroom"
    impact_force := some "High" }

/-! ## Health Monitor Agent (`src/agents/health_monitor.py`) -/

/-- A min/max band of a health metric. -/
structure Band where
  min : Int
  max : Int
  deriving DecidableEq, Repr

/-- The five banded metrics of `HealthMonitorAgent._get_default_thresholds` /
`_calculate_personalized_thresholds`. -/
structure Thresholds where
  heart_rate : Band
  blood_pressure_systolic : Band
  blood_pressure_diastolic : Band
  glucose : Band
  oxygen : Band
  deriving DecidableEq, Repr

/-- `HealthMonitorAgent._get_default_thresholds` with the literal fallbacks
used when the config carries no `thresholds` section. -/
def default_thresholds : Thresholds :=
  { heart_rate := ⟨60, 100⟩
    blood_pressure_systolic := ⟨90, 140⟩
    blood_pressure_diastolic := ⟨60, 90⟩
    glucose := ⟨70, 140⟩
    oxygen := ⟨95, 100⟩ }

/-- Python `int(...)`: truncation toward zero of an exact rational. -/
def pyInt (q : ℚ) : Int :=
  if 0 ≤ q then Int.floor q else Int.ceil q

/-- The historical-mean statistics of `analyzer.analyze_health_metrics` that
`_calculate_personalized_thresholds` reads (`<metric>["mean"]`,
`blood_pressure["mean_systolic"]`, `blood_pressure["mean_diastolic"]`).
Sections the analysis lacks are `none`. -/
structure HealthMeans where
  heart_rate : Option ℚ := none
  mean_systolic : Option ℚ := none
  mean_diastolic : Option ℚ := none
  glucose : Option ℚ := none
  oxygen : Option ℚ := none
  blood_pressure_present : Bool := false
  deriving DecidableEq

/-- `HealthMonitorAgent._calculate_personalized_thresholds`: start from the
defaults; only when the user has at least 5 stored health samples, clamp each
available historical mean into its safety band (`mean_systolic` /
`mean_diastolic` are additionally truthiness-guarded); the oxygen maximum is
pinned to 100.  Each Python assignment touches exactly one metric's band of
the copied defaults dict, so the update sequence is written here as one
record constructor with an independent per-field computation. -/
def calculate_personalized_thresholds (defaults : Thresholds) (history_len : Nat)
    (means : HealthMeans) : Thresholds :=
  if 5 ≤ history_len then
    { heart_rate :=
        match means.heart_rate with
        | some m => ⟨max (pyInt (m - 15)) 50, min (pyInt (m + 15)) 150⟩
        | none => defaults.heart_rate
      blood_pressure_systolic :=
        if means.blood_pressure_present then
          match means.mean_systolic with
          | some m =>
              if m ≠ 0 then ⟨max (pyInt (m - 15)) 85, min (pyInt (m + 15)) 160⟩
              else defaults.blood_pressure_systolic
          | none => defaults.blood_pressure_systolic
        else defaults.blood_pressure_systolic
      blood_pressure_diastolic :=
        if means.blood_pressure_present then
          match means.mean_diastolic with
          | some m =>
              if m ≠ 0 then ⟨max (pyInt (m - 10)) 50, min (pyInt (m + 10)) 100⟩
              else defaults.blood_pressure_diastolic
          | none => defaults.blood_pressure_diastolic
        else defaults.blood_pressure_diastolic
      glucose :=
        match means.glucose with
        | some m => ⟨max (pyInt (m - 20)) 65, min (pyInt (m + 20)) 180⟩
        | none => defaults.glucose
      oxygen :=
        match means.oxygen with
        | some m => ⟨max (pyInt (m - 3)) 90, 100⟩
        | none => defaults.oxygen }
  else defaults

/-- The current readings of an analysis as `_generate_health_alerts` reads
them (`<metric>["current"]`, `blood_pressure["current_systolic"]` /
`["current_diastolic"]`).  A `none` section skips that metric's checks. -/
structure HealthCurrents where
  heart_rate : Option Int := none
  current_systolic : Option Int := none
  current_diastolic : Option Int := none
  blood_pressure_present : Bool := false
  glucose : Option Int := none
  oxygen : Option Int := none
  deriving DecidableEq

/-- `HealthMonitorAgent._generate_health_alerts`: each present metric is
compared against its band; breaches are `"warning"` except beyond the second
margin — systolic at or above 160, diastolic at or above 100, glucose at or
below 60 / at or above 180, oxygen at or below 92 — which are `"urgent"`.
The blood-pressure block runs only when both current values are truthy. -/
def generate_health_alerts (c : HealthCurrents) (t : Thresholds) (now : Nat) :
    List Alert :=
  (match c.heart_rate with
   | some hr =>
       if hr < t.heart_rate.min then
         [{ timestamp := now, level := "warning", type := "heart_rate_low"
            message := "Heart rate below threshold: " ++ toString hr
              ++ " bpm (min: " ++ toString t.heart_rate.min ++ ")"
            value := some hr, threshold := some t.heart_rate.min
            comparison := some "below" }]
       else if hr > t.heart_rate.max then
         [{ timestamp := now, level := "warning", type := "heart_rate_high"
            message := "Heart rate above threshold: " ++ toString hr
              ++ " bpm (max: " ++ toString t.heart_rate.max ++ ")"
            value := some hr, threshold := some t.heart_rate.max
            comparison := some "above" }]
       else []
   | none => [])
  ++ (if c.blood_pressure_present
        && truthyInt c.current_systolic && truthyInt c.current_diastolic then
      let systolic := c.current_systolic.getD 0
      let diastolic := c.current_diastolic.getD 0
      (if systolic < t.blood_pressure_systolic.min then
        [{ timestamp := now, level := "warning", type := "blood_pressure_systolic_low"
           message := "Systolic blood pressure below threshold: " ++ toString systolic
             ++ " mmHg (min: " ++ toString t.blood_pressure_systolic.min ++ ")"
           value := some systolic, threshold := some t.blood_pressure_systolic.min
           comparison := some "below" }]
      else if systolic > t.blood_pressure_systolic.max then
        [{ timestamp := now
           level := if systolic < 160 then "warning" else "urgent"
           type := "blood_pressure_systolic_high"
           message := "Systolic blood pressure above threshold: " ++ toString systolic
             ++ " mmHg (max: " ++ toString t.blood_pressure_systolic.max ++ ")"
           value := some systolic, threshold := some t.blood_pressure_systolic.max
           comparison := some "above" }]
      else [])
      ++ (if diastolic < t.blood_pressure_diastolic.min then
        [{ timestamp := now, level := "warning", type := "blood_pressure_diastolic_low"
           message := "Diastolic blood pressure below threshold: " ++ toString diastolic
             ++ " mmHg (min: " ++ toString t.blood_pressure_diastolic.min ++ ")"
           value := some diastolic, threshold := some t.blood_pressure_diastolic.min
           comparison := some "below" }]
      else if diastolic > t.blood_pressure_diastolic.max then
        [{ timestamp := now
           level := if diastolic < 100 then "warning" else "urgent"
           type := "blood_pressure_diastolic_high"
           message := "Diastolic blood pressure above threshold: " ++ toString diastolic
             ++ " mmHg (max: " ++ toString t.blood_pressure_diastolic.max ++ ")"
           value := some diastolic, threshold := some t.blood_pressure_diastolic.max
           comparison := some "above" }]
      else [])
    else [])
  ++ (match c.glucose with
   | some g =>
       if g < t.glucose.min then
         [{ timestamp := now
            level := if g > 60 then "warning" else "urgent"
            type := "glucose_low"
            message := "Glucose level below threshold: " ++ toString g
              ++ " mg/dL (min: " ++ toString t.glucose.min ++ ")"
            value := some g, threshold := some t.glucose.min
            comparison := some "below" }]
       else if g > t.glucose.max then
         [{ timestamp := now
            level := if g < 180 then "warning" else "urgent"
            type := "glucose_high"
            message := "Glucose level above threshold: " ++ toString g
              ++ " mg/dL (max: " ++ toString t.glucose.max ++ ")"
            value := some g, threshold := some t.glucose.max
            comparison := some "above" }]
       else []
   | none => [])
  ++ (match c.oxygen with
   | some o =>
       if o < t.oxygen.min then
         [{ timestamp := now
            level := if o > 92 then "warning" else "urgent"
            type := "oxygen_low"
            message := "Oxygen saturation below threshold: " ++ toString o
              ++ "% (min: " ++ toString t.oxygen.min ++ ")"
            value := some o, threshold := some t.oxygen.min
            comparison := some "below" }]
       else []
   | none => [])

/-- A concrete level-1 fall emergency (the record `handle_emergency` builds
for user `u1` at second 0) used to instantiate the theorems below. -/
def sampleFall : Emergency :=
  { id := emergencyId "u1" "fall" 0
    user_id := "u1"
    type := "fall"
    details := []
    location := "Bathroom"
    created_at := 0
    last_escalation := 0
    escalation_level := 1
    resolved := false
    resolution_details := none
    resolution_time := none }

/-- An agent state in which user `u1` has `sampleFall` active. -/
def sampleER : ERState :=
  { active := setUser (fun _ => none) "u1" (some sampleFall)
    history := fun _ => [] }

/-- A context for user `u1` holding two alerts, exactly one of which carries
id `a1` (used to instantiate the alert-resolution theorems). -/
def sampleAlertCtx : UserContext :=
  { initialize_user_context_fresh "u1" 0 with
    alerts := [{ id := some "a1", level := "warning", type := "heart_rate_high" },
               { level := "urgent", type := "fall_detected" }] }

/-- Reading back the slot just written in a user-keyed map. -/
theorem setUser_same {α : Type} (m : String → α) (u : String) (v : α) :
    setUser m u v u = v := by
  simp [setUser]

/-- Reading an untouched slot of a user-keyed map. -/
theorem setUser_other {α : Type} (m : String → α) (u x : String) (v : α)
    (h : x ≠ u) : setUser m u v x = m x := by
  simp [setUser, h]

/-! ## Claim C1 — overall status priority order -/

/-- C1 counterexample: a context whose four domain statuses are all
`"unknown"` (and no emergency) is mapped to `"normal"`, not `"unknown"` —
Python's `all` over the unknown-filtered generator is vacuously true. -/
theorem C1_counterexample :
    determine_overall_status (initialize_user_context_fresh "u1" 0) = "normal" ∧
      (initialize_user_context_fresh "u1" 0).health_status = "unknown" ∧
      (initialize_user_context_fresh "u1" 0).safety_status = "unknown" ∧
      (initialize_user_context_fresh "u1" 0).reminder_status = "unknown" ∧
      (initialize_user_context_fresh "u1" 0).social_status = "unknown" ∧
      (initialize_user_context_fresh "u1" 0).emergency_status = "none" ∧
      "normal" ≠ "unknown" := by
  refine ⟨by decide, rfl, rfl, rfl, rfl, rfl, by decide⟩

set_option maxRecDepth 8000 in
/-- C1 (amended): for every context, the overall status is the first match of
the strict priority order `emergency` (`emergency_status ≠ "none"`) >
`alert` (some domain status `"alert"`) > `attention` (some `"attention"`) >
`normal` (every domain status other than `"unknown"` is `"normal"` — which
holds vacuously when all four are `"unknown"`, so that case yields
`"normal"`) > `unknown` (some domain status is outside the known
vocabulary). -/
theorem C1_overall_status_priority (ctx : UserContext) :
    (determine_overall_status ctx = "emergency" ↔ ctx.emergency_status ≠ "none") ∧
    (determine_overall_status ctx = "alert" ↔ ctx.emergency_status = "none" ∧
      ("alert" = ctx.health_status ∨ "alert" = ctx.safety_status ∨
        "alert" = ctx.reminder_status ∨ "alert" = ctx.social_status)) ∧
    (determine_overall_status ctx = "attention" ↔ ctx.emergency_status = "none" ∧
      ¬("alert" = ctx.health_status ∨ "alert" = ctx.safety_status ∨
        "alert" = ctx.reminder_status ∨ "alert" = ctx.social_status) ∧
      ("attention" = ctx.health_status ∨ "attention" = ctx.safety_status ∨
        "attention" = ctx.reminder_status ∨ "attention" = ctx.social_status)) ∧
    (determine_overall_status ctx = "normal" ↔ ctx.emergency_status = "none" ∧
      ¬("alert" = ctx.health_status ∨ "alert" = ctx.safety_status ∨
        "alert" = ctx.reminder_status ∨ "alert" = ctx.social_status) ∧
      ¬("attention" = ctx.health_status ∨ "attention" = ctx.safety_status ∨
        "attention" = ctx.reminder_status ∨ "attention" = ctx.social_status) ∧
      ((ctx.health_status ≠ "unknown" → ctx.health_status = "normal") ∧
       (ctx.safety_status ≠ "unknown" → ctx.safety_status = "normal") ∧
       (ctx.reminder_status ≠ "unknown" → ctx.reminder_status = "normal") ∧
       (ctx.social_status ≠ "unknown" → ctx.social_status = "normal"))) ∧
    (determine_overall_status ctx = "unknown" ↔ ctx.emergency_status = "none" ∧
      ¬("alert" = ctx.health_status ∨ "alert" = ctx.safety_status ∨
        "alert" = ctx.reminder_status ∨ "alert" = ctx.social_status) ∧
      ¬("attention" = ctx.health_status ∨ "attention" = ctx.safety_status ∨
        "attention" = ctx.reminder_status ∨ "attention" = ctx.social_status) ∧
      ¬((ctx.health_status ≠ "unknown" → ctx.health_status = "normal") ∧
        (ctx.safety_status ≠ "unknown" → ctx.safety_status = "normal") ∧
        (ctx.reminder_status ≠ "unknown" → ctx.reminder_status = "normal") ∧
        (ctx.social_status ≠ "unknown" → ctx.social_status = "normal"))) := by
  simp only [determine_overall_status, List.mem_cons, List.not_mem_nil, or_false,
    List.forall_mem_cons, List.forall_mem_nil, and_true]
  split_ifs with h1 h2 h3 h4 <;>
    refine ⟨?_, ?_, ?_, ?_, ?_⟩ <;>
    simp_all

/-! ## Claim C4 — time-driven escalation -/

/-- C4: one periodic tick over a user with an active unresolved emergency:
at level 1 or 2 the emergency escalates one level exactly when at least 5
minutes have elapsed since `last_escalation` (i.e. 300 seconds), otherwise it
is untouched; at level 3 every tick leaves it untouched. -/
theorem C4_escalation_tick (s : ERState) (u : String) (now : Nat) (e : Emergency)
    (hact : s.active u = some e) (hres : e.resolved = false) :
    ∃ e', (tick_user s u now).active u = some e' ∧
      ((5:ℚ) ≤ minutes_since now e.last_escalation ↔
        (300:Int) ≤ (now : Int) - (e.last_escalation : Int)) ∧
      (e.escalation_level = 1 ∨ e.escalation_level = 2 →
        (e'.escalation_level = e.escalation_level + 1 ↔
          (300:Int) ≤ (now : Int) - (e.last_escalation : Int)) ∧
        (¬ (300:Int) ≤ (now : Int) - (e.last_escalation : Int) → e' = e)) ∧
      (e.escalation_level = 3 → e' = e) := by
  have hmin : (5:ℚ) ≤ minutes_since now e.last_escalation ↔
      (300:Int) ≤ (now : Int) - (e.last_escalation : Int) := by
    unfold minutes_since
    rw [le_div_iff₀ (by norm_num : (0:ℚ) < 60)]
    constructor
    · intro h
      have h' : ((300:Int):ℚ) ≤ (((now:Int) - (e.last_escalation:Int)):ℚ) := by
        push_cast
        linarith
      exact_mod_cast h'
    · intro h
      have h' : ((300:Int):ℚ) ≤ (((now:Int) - (e.last_escalation:Int)):ℚ) := by
        exact_mod_cast h
      push_cast at h'
      linarith
  refine ⟨check_emergency_escalation e now, ?_, hmin, ?_, ?_⟩
  · unfold tick_user
    rw [hact]
    simp [hres, setUser]
  · intro hlvl
    unfold check_emergency_escalation
    rcases hlvl with h1 | h2
    · simp only [h1]
      by_cases ht : (5:ℚ) ≤ minutes_since now e.last_escalation
      · simp [ht, escalate_emergency, hmin.mp ht, h1]
      · simp [ht, h1, mt hmin.mpr ht, (hmin.not.mp ht)]
    · simp only [h2]
      by_cases ht : (5:ℚ) ≤ minutes_since now e.last_escalation
      · simp [ht, escalate_emergency, hmin.mp ht, h2]
      · simp [ht, h2, mt hmin.mpr ht, hmin.not.mp ht]
  · intro h3
    unfold check_emergency_escalation
    simp [h3]

/-- C4 witness: in `sampleER`, user `u1` has an unresolved level-1 emergency
whose `last_escalation` is 360 seconds (6 minutes) in the past at the tick,
and the tick escalates it to level 2. -/
theorem C4_witness :
    ∃ e', (tick_user sampleER "u1" 360).active "u1" = some e' ∧
      e'.escalation_level = 2 := by
  obtain ⟨e', h1, -, h2, -⟩ :=
    C4_escalation_tick sampleER "u1" 360 sampleFall (by decide) (by decide)
  refine ⟨e', h1, ?_⟩
  have h3 := (h2 (Or.inl rfl)).1.mpr (by decide)
  simpa [sampleFall] using h3

/-! ## Claim C3 — same-type update vs different-type supersede -/

/-- C3 counterexample: with `sampleFall` (level 1) active, a second
`handle_emergency` of the *same* type `"fall"` whose details carry
`impact_force_level == "high"` does **not** keep `escalation_level`
unchanged: the initial-response check runs on the updated record and
escalates it to level 2. -/
theorem C3_counterexample :
    ((handle_emergency sampleER "u1" "fall" [("impact_force_level", "high")]
        "Bathroom" 60).1.active "u1").map Emergency.escalation_level = some 2 ∧
      sampleFall.escalation_level = 1 ∧ (2 : Nat) ≠ 1 := by
  decide

/-- C3 (amended): with an active emergency and an incoming call that does not
meet the immediate-escalation condition of `_initial_emergency_response`:
a same-type call keeps `escalation_level` and `last_escalation` (and the
history) unchanged, while a different-type call appends the old emergency to
history marked resolved with reason `"Superseded by new emergency"` and
installs the new one at escalation level 1. -/
theorem C3_handle_active (s : ERState) (u ty : String) (d : EDetails)
    (loc : String) (now : Nat) (old : Emergency) (hact : s.active u = some old)
    (hsev : severe_condition ty d = false) :
    (old.type = ty →
      ∃ e', (handle_emergency s u ty d loc now).1.active u = some e' ∧
        e'.escalation_level = old.escalation_level ∧
        e'.last_escalation = old.last_escalation ∧
        (handle_emergency s u ty d loc now).1.history u = s.history u) ∧
    (old.type ≠ ty →
      ∃ e', (handle_emergency s u ty d loc now).1.active u = some e' ∧
        e'.escalation_level = 1 ∧ e'.resolved = false ∧
        (handle_emergency s u ty d loc now).1.history u =
          s.history u ++ [{ old with
            resolved := true
            resolution_details := some "Superseded by new emergency"
            resolution_time := some now }]) := by
  unfold handle_emergency
  rw [hact]
  dsimp only
  constructor
  · intro hty
    rw [if_pos hty]
    refine ⟨_, setUser_same _ _ _, ?_, ?_, rfl⟩ <;>
      simp [initial_emergency_response, hsev]
  · intro hty
    rw [if_neg hty]
    refine ⟨_, setUser_same _ _ _, ?_, ?_, setUser_same _ _ _⟩ <;>
      simp [initial_emergency_response, hsev]

/-- C3 witness: instantiating the amended claim at `sampleER`: a same-type
(`"fall"`) non-severe call preserves level 1, and a different-type
(`"health"`) non-severe call installs a level-1 emergency and archives
`sampleFall` as resolved-superseded. -/
theorem C3_witness :
    (∃ e', (handle_emergency sampleER "u1" "fall" [] "Kitchen" 60).1.active "u1" = some e' ∧
      e'.escalation_level = sampleFall.escalation_level) ∧
    (∃ e', (handle_emergency sampleER "u1" "health" [] "Kitchen" 60).1.active "u1" = some e' ∧
      e'.escalation_level = 1 ∧
      (handle_emergency sampleER "u1" "health" [] "Kitchen" 60).1.history "u1" =
        [{ sampleFall with
            resolved := true
            resolution_details := some "Superseded by new emergency"
            resolution_time := some 60 }]) := by
  constructor
  · obtain ⟨e', h1, h2, -, -⟩ :=
      (C3_handle_active sampleER "u1" "fall" [] "Kitchen" 60 sampleFall
        (by decide) (by decide)).1 (by decide)
    exact ⟨e', h1, h2⟩
  · obtain ⟨e', h1, h2, -, h4⟩ :=
      (C3_handle_active sampleER "u1" "health" [] "Kitchen" 60 sampleFall
        (by decide) (by decide)).2 (by decide)
    exact ⟨e', h1, h2, by simpa [sampleER] using h4⟩

/-! ## Claim C5 — one active emergency per user, supersede finalizes first -/

/-- The initial response leaves the `resolved` flag alone. -/
theorem initial_emergency_response_resolved (e : Emergency) (now : Nat) :
    (initial_emergency_response e now).resolved = e.resolved := by
  unfold initial_emergency_response escalate_emergency
  split <;> rfl

/-- The escalation check leaves the `resolved` flag alone. -/
theorem check_emergency_escalation_resolved (e : Emergency) (now : Nat) :
    (check_emergency_escalation e now).resolved = e.resolved := by
  unfold check_emergency_escalation escalate_emergency
  split
  · rfl
  · split <;> rfl

/-- Every single operation preserves "every active slot holds an unresolved
emergency". -/
theorem applyOp_active_unresolved (s : ERState)
    (h : ∀ u e, s.active u = some e → e.resolved = false) (op : EROp) :
    ∀ u e, (applyOp s op).active u = some e → e.resolved = false := by
  intro u e
  cases op with
  | handle u0 ty d loc now =>
      dsimp only [applyOp]
      unfold handle_emergency
      cases hs : s.active u0 with
      | none =>
          dsimp only
          by_cases hu : u = u0
          · subst hu
            intro he
            simp only [setUser_same, Option.some.injEq] at he
            subst he
            rw [initial_emergency_response_resolved]
          · intro he
            simp only [setUser_other _ _ _ _ hu] at he
            exact h u e he
      | some old =>
          dsimp only
          split
          · by_cases hu : u = u0
            · subst hu
              intro he
              simp only [setUser_same, Option.some.injEq] at he
              subst he
              rw [initial_emergency_response_resolved]
            · intro he
              simp only [setUser_other _ _ _ _ hu] at he
              exact h u e he
          · by_cases hu : u = u0
            · subst hu
              intro he
              simp only [setUser_same, Option.some.injEq] at he
              subst he
              rw [initial_emergency_response_resolved]
            · intro he
              simp only [setUser_other _ _ _ _ hu] at he
              exact h u e he
  | resolve u0 eid r now =>
      dsimp only [applyOp]
      unfold resolve_emergency
      cases hs : s.active u0 with
      | none => exact h u e
      | some act =>
          dsimp only
          split
          · exact h u e
          · by_cases hu : u = u0
            · subst hu
              intro he
              simp only [setUser_same] at he
              exact Option.noConfusion he
            · intro he
              simp only [setUser_other _ _ _ _ hu] at he
              exact h u e he
  | tick u0 now =>
      dsimp only [applyOp]
      unfold tick_user
      cases hs : s.active u0 with
      | none => exact h u e
      | some e0 =>
          dsimp only
          split
          · by_cases hu : u = u0
            · subst hu
              intro he
              simp only [setUser_same] at he
              exact Option.noConfusion he
            · intro he
              simp only [setUser_other _ _ _ _ hu] at he
              exact h u e he
          · by_cases hu : u = u0
            · subst hu
              intro he
              simp only [setUser_same, Option.some.injEq] at he
              subst he
              rw [check_emergency_escalation_resolved]
              exact h _ e0 hs
            · intro he
              simp only [setUser_other _ _ _ _ hu] at he
              exact h u e he

/-- C5: (i) after any sequence of `handle_emergency` / `resolve_emergency` /
update-tick operations from the initial state, every user's single active
slot (the per-user `Optional[Emergency]` of the source, so "at most one
active per user" is the very shape of the state) holds only unresolved
emergencies; (ii) superseding an active emergency with one of a different
type appends the old record to that user's history marked `resolved` with
reason `"Superseded by new emergency"`, in the same step in which the new
unresolved record is installed in the active slot. -/
theorem C5_single_active_invariant :
    (∀ (ops : List EROp) (u : String) (e : Emergency),
      (runOps erInit ops).active u = some e → e.resolved = false) ∧
    (∀ (s : ERState) (u ty : String) (d : EDetails) (loc : String) (now : Nat)
      (old : Emergency), s.active u = some old → old.type ≠ ty →
        (applyOp s (EROp.handle u ty d loc now)).history u =
          s.history u ++ [{ old with
            resolved := true
            resolution_details := some "Superseded by new emergency"
            resolution_time := some now }] ∧
        ∃ e', (applyOp s (EROp.handle u ty d loc now)).active u = some e' ∧
          e'.resolved = false) := by
  constructor
  · intro ops
    suffices hgen : ∀ (s : ERState),
        (∀ u e, s.active u = some e → e.resolved = false) →
        ∀ u e, (runOps s ops).active u = some e → e.resolved = false by
      exact hgen erInit (by intro u e he; cases he)
    induction ops with
    | nil => intro s hs; exact hs
    | cons op rest ih =>
        intro s hs
        exact ih (applyOp s op) (applyOp_active_unresolved s hs op)
  · intro s u ty d loc now old hact hty
    dsimp only [applyOp]
    unfold handle_emergency
    rw [hact]
    dsimp only
    rw [if_neg hty]
    refine ⟨setUser_same _ _ _, _, setUser_same _ _ _, ?_⟩
    rw [initial_emergency_response_resolved]

/-- C5 witness: after the two-step run "raise a fall, then raise a health
emergency" for user `u1`, the active emergency is unresolved (first
conjunct), and the supersede step from `sampleER` archives `sampleFall` as
resolved before installing the new record (second conjunct). -/
theorem C5_witness :
    (∀ e, (runOps erInit
        [EROp.handle "u1" "fall" [] "Bathroom" 0,
         EROp.handle "u1" "health" [] "Kitchen" 60]).active "u1" = some e →
      e.resolved = false) ∧
    ((applyOp sampleER (EROp.handle "u1" "health" [] "Kitchen" 60)).history "u1" =
        [{ sampleFall with
            resolved := true
            resolution_details := some "Superseded by new emergency"
            resolution_time := some 60 }] ∧
      ∃ e', (applyOp sampleER (EROp.handle "u1" "health" [] "Kitchen" 60)).active "u1" =
          some e' ∧ e'.resolved = false) := by
  constructor
  · intro e
    exact C5_single_active_invariant.1
      [EROp.handle "u1" "fall" [] "Bathroom" 0,
       EROp.handle "u1" "health" [] "Kitchen" 60] "u1" e
  · obtain ⟨h1, e', h2, h3⟩ :=
      C5_single_active_invariant.2 sampleER "u1" "health" [] "Kitchen" 60 sampleFall
        (by decide) (by decide)
    exact ⟨by simpa [sampleER] using h1, e', h2, h3⟩

/-! ## Claim C10 — same-type replacement, fresh id, resolving by stale id -/

/-- Emergency ids minted for the same user and type at seconds with distinct
renderings are distinct. -/
theorem emergencyId_ne_of_fmt_ne (u ty : String) {n m : Nat}
    (h : toString n ≠ toString m) : emergencyId u ty n ≠ emergencyId u ty m := by
  intro he
  apply h
  have hd := congrArg String.data he
  simp only [emergencyId, String.data_append] at hd
  exact String.ext (List.append_cancel_left hd)

/-- Emergency ids are never the empty string (they contain separators). -/
theorem emergencyId_ne_empty (u ty : String) (n : Nat) : emergencyId u ty n ≠ "" := by
  intro h
  have hd := congrArg String.data h
  simp only [emergencyId, String.data_append] at hd
  rcases List.append_eq_nil.mp hd with ⟨hd1, -⟩
  rcases List.append_eq_nil.mp hd1 with ⟨-, hd2⟩
  exact absurd hd2 (by decide)

/-- C10 counterexample: emergency ids have one-second granularity
(`strftime('%Y%m%d%H%M%S')`), so raising the same emergency type twice
within the same second mints the *same* id; resolving with the id returned
by the first call then succeeds (clearing the active slot) instead of
returning an error. -/
theorem C10_counterexample :
    ((handle_emergency (handle_emergency erInit "u1" "fall" [] "Bathroom" 100).1
        "u1" "fall" [] "Bathroom" 100).2.id
      = (handle_emergency erInit "u1" "fall" [] "Bathroom" 100).2.id) ∧
    ((resolve_emergency
        (handle_emergency (handle_emergency erInit "u1" "fall" [] "Bathroom" 100).1
          "u1" "fall" [] "Bathroom" 100).1
        "u1" (some (handle_emergency erInit "u1" "fall" [] "Bathroom" 100).2.id)
        none 200).2.isOk = true) ∧
    ((resolve_emergency
        (handle_emergency (handle_emergency erInit "u1" "fall" [] "Bathroom" 100).1
          "u1" "fall" [] "Bathroom" 100).1
        "u1" (some (handle_emergency erInit "u1" "fall" [] "Bathroom" 100).2.id)
        none 200).1.active "u1" = none) := by
  decide

/-- C10 (amended): a same-type `handle_emergency` call that occurs in a
*different formatted second* than the one that minted the active emergency's
id, and that does not meet the immediate-escalation condition, replaces the
active record with a freshly built one — id, `created_at`, details and
location from the new call; only `escalation_level` and `last_escalation`
carried over — whose id differs from the old id, and a subsequent
`resolve_emergency` with the old id returns an error leaving the active
emergency in place. -/
theorem C10_same_type_replacement (s : ERState) (u ty : String) (d : EDetails)
    (loc : String) (n0 n1 n2 : Nat) (old : Emergency)
    (hact : s.active u = some old) (hty : old.type = ty)
    (hid : old.id = emergencyId u ty n0)
    (hfmt : toString n0 ≠ toString n1)
    (hsev : severe_condition ty d = false) :
    ∃ e', (handle_emergency s u ty d loc n1).1.active u = some e' ∧
      e' = { id := emergencyId u ty n1
             user_id := u
             type := ty
             details := d
             location := loc
             created_at := n1
             last_escalation := old.last_escalation
             escalation_level := old.escalation_level
             resolved := false
             resolution_details := none
             resolution_time := none } ∧
      e'.id ≠ old.id ∧
      (resolve_emergency (handle_emergency s u ty d loc n1).1 u (some old.id)
          none n2).1.active u = some e' ∧
      ∃ msg, (resolve_emergency (handle_emergency s u ty d loc n1).1 u (some old.id)
          none n2).2 = Except.error msg := by
  have hne : emergencyId u ty n1 ≠ old.id := by
    rw [hid]
    exact emergencyId_ne_of_fmt_ne u ty (fun hh => hfmt hh.symm)
  have hstep : (handle_emergency s u ty d loc n1).1.active u =
      some { id := emergencyId u ty n1
             user_id := u
             type := ty
             details := d
             location := loc
             created_at := n1
             last_escalation := old.last_escalation
             escalation_level := old.escalation_level
             resolved := false
             resolution_details := none
             resolution_time := none } := by
    unfold handle_emergency
    rw [hact]
    dsimp only
    rw [if_pos hty]
    refine Eq.trans (setUser_same _ _ _) ?_
    simp [initial_emergency_response, hsev]
  have hempty : old.id ≠ "" := by
    rw [hid]
    exact emergencyId_ne_empty u ty n0
  have hcond : (truthyStr (some old.id) &&
      decide (emergencyId u ty n1 ≠ (some old.id).getD "")) = true := by
    simp only [truthyStr, Option.getD_some, Bool.and_eq_true, decide_eq_true_eq,
      ne_eq]
    exact ⟨hempty, hne⟩
  refine ⟨_, hstep, rfl, hne, ?_, ?_⟩
  · unfold resolve_emergency
    rw [hstep]
    dsimp only
    rw [if_pos hcond]
    exact hstep
  · unfold resolve_emergency
    rw [hstep]
    dsimp only
    rw [if_pos hcond]
    exact ⟨_, rfl⟩

/-- C10 witness: instantiating the amended claim for `sampleER` (whose
active fall emergency carries id `emergencyId "u1" "fall" 0`) with a second
same-type call at second 60: the replacement happens, the ids differ, and
resolving with the stale id errors out. -/
theorem C10_witness :
    ∃ e', (handle_emergency sampleER "u1" "fall" [] "Hall" 60).1.active "u1" = some e' ∧
      e'.id ≠ sampleFall.id ∧
      (resolve_emergency (handle_emergency sampleER "u1" "fall" [] "Hall" 60).1
          "u1" (some sampleFall.id) none 120).1.active "u1" = some e' := by
  obtain ⟨e', h1, -, h3, h4, -⟩ :=
    C10_same_type_replacement sampleER "u1" "fall" [] "Hall" 0 60 120 sampleFall
      (by decide) (by decide) rfl (by decide) (by decide)
  exact ⟨e', h1, h3, h4⟩

/-! ## Claim C2 — end-to-end bathroom-fall scenario for a fresh user -/

/-- C2 counterexample: injecting the bathroom-fall reading for fresh user
`u1` creates an active `"fall"` emergency at escalation level **1**, not 2 —
`_initial_emergency_response` looks for details key `impact_force_level ==
"high"` but the raw safety reading carries `impact_force == "High"` — and
the context's `overall_status` ends the call as `"normal"`, not
`"emergency"` — `_process_safety_data` never writes `emergency_status`, which
is only refreshed by the next stale-context update. -/
theorem C2_counterexample :
    (((process_safety_data_fresh (fun _ => []) (initialize_user_context_fresh "u1" 0)
          erInit "u1" bathroomFallReading 0).2.active "u1").map
        (fun e => (e.type, e.escalation_level)) = some ("fall", 1)) ∧
    ((process_safety_data_fresh (fun _ => []) (initialize_user_context_fresh "u1" 0)
        erInit "u1" bathroomFallReading 0).1.overall_status = "normal") ∧
    (1 : Nat) ≠ 2 ∧ "normal" ≠ "emergency" := by
  decide

/-- C2 (amended): for every fresh user and any times, processing the
bathroom-fall reading through the coordination safety path leaves the
Emergency Agent holding an active, unresolved emergency of type `"fall"`
for that user at escalation level 1 (the impact-force escalation check does
not fire on this path), and leaves the user's context with
`safety_status = "normal"`, `emergency_status` still `"none"` and
`overall_status = "normal"`. -/
theorem C2_fresh_fall_pipeline (roomExpected : String → List String)
    (user_id : String) (t0 now : Nat) :
    ((process_safety_data_fresh roomExpected
        (initialize_user_context_fresh user_id t0) erInit user_id
        bathroomFallReading now).2.active user_id =
      some { id := emergencyId user_id "fall" now
             user_id := user_id
             type := "fall"
             details := bathroomFallReading.toDetails
             location := "Bathroom"
             created_at := now
             last_escalation := now
             escalation_level := 1
             resolved := false
             resolution_details := none
             resolution_time := none }) ∧
    ((process_safety_data_fresh roomExpected
        (initialize_user_context_fresh user_id t0) erInit user_id
        bathroomFallReading now).1.safety_status = "normal") ∧
    ((process_safety_data_fresh roomExpected
        (initialize_user_context_fresh user_id t0) erInit user_id
        bathroomFallReading now).1.emergency_status = "none") ∧
    ((process_safety_data_fresh roomExpected
        (initialize_user_context_fresh user_id t0) erInit user_id
        bathroomFallReading now).1.overall_status = "normal") := by
  have hsev : severe_condition "fall" (SafetyReading.toDetails
      { fall_detected := some "Yes"
        location := some "Bathroom"
        impact_force := some "High"
        post_fall_inactivity := none
        movement_activity := none }) = false := by
    decide
  refine ⟨?_, ?_, ?_, ?_⟩ <;>
    simp [process_safety_data_fresh, analyze_safety_data_fresh,
      generate_safety_alerts_fresh, is_unusual_activity, truthyStr, mergeAlert,
      handle_emergency, initial_emergency_response, hsev, erInit, setUser,
      bathroomFallReading, initialize_user_context_fresh,
      determine_overall_status]

/-! ## Claim C6 — alert merge is idempotent -/

/-- C6: merging an alert into a context's alert list — append when absent
(by full value equality), skip when present — is idempotent: merging the same
alert dict twice produces the same list (hence the same length and contents)
as merging it once. -/
theorem C6_merge_idempotent (alerts : List Alert) (a : Alert) :
    mergeAlert (mergeAlert alerts a) a = mergeAlert alerts a := by
  unfold mergeAlert
  by_cases h : a ∈ alerts
  · simp [h]
  · simp [h]

/-! ## Claim C7 — resolve_alert round trip -/

/-- When no alert carries the id, the linear scan finds nothing. -/
theorem removeFirstAlertById_eq_none (l : List Alert) (aid : String)
    (h : ∀ a ∈ l, a.id ≠ some aid) : removeFirstAlertById l aid = none := by
  induction l with
  | nil => rfl
  | cons a rest ih =>
      unfold removeFirstAlertById
      rw [if_neg (h a (List.mem_cons_self a rest))]
      rw [ih (fun x hx => h x (List.mem_cons_of_mem a hx))]
      rfl

/-- When exactly one alert carries the id, the linear scan removes exactly
that one: one element shorter, no matching alert left, every non-matching
alert kept. -/
theorem removeFirstAlertById_of_countP_one (l : List Alert) (aid : String)
    (h : l.countP (fun a => decide (a.id = some aid)) = 1) :
    ∃ l', removeFirstAlertById l aid = some l' ∧
      l'.length + 1 = l.length ∧
      l'.countP (fun a => decide (a.id = some aid)) = 0 ∧
      (∀ a ∈ l, a.id ≠ some aid → a ∈ l') := by
  induction l with
  | nil => simp [List.countP_nil] at h
  | cons a rest ih =>
      by_cases ha : a.id = some aid
      · have hrest : rest.countP (fun a => decide (a.id = some aid)) = 0 := by
          rw [List.countP_cons_of_pos _ _ (by simpa using ha)] at h
          omega
        refine ⟨rest, ?_, rfl, hrest, ?_⟩
        · unfold removeFirstAlertById
          rw [if_pos ha]
        · intro x hx hxid
          rcases List.mem_cons.mp hx with rfl | hx'
          · exact absurd ha hxid
          · exact hx'
      · have hrest : rest.countP (fun a => decide (a.id = some aid)) = 1 := by
          rwa [List.countP_cons_of_neg _ _ (by simpa using ha)] at h
        obtain ⟨l', hrem, hlen, hcnt, hmem⟩ := ih hrest
        refine ⟨a :: l', ?_, by simpa using hlen, ?_, ?_⟩
        · unfold removeFirstAlertById
          rw [if_neg ha, hrem]
          rfl
        · rw [List.countP_cons_of_neg _ _ (by simpa using ha)]
          exact hcnt
        · intro x hx hxid
          rcases List.mem_cons.mp hx with rfl | hx'
          · exact List.mem_cons_self _ _
          · exact List.mem_cons_of_mem _ (hmem x hx' hxid)

/-- C7: for a known user whose alert list holds exactly one alert with the
given id, `resolve_alert` removes exactly that alert (one shorter, no match
left, all other alerts kept) and returns success; a second call with the same
id returns a soft error dict and leaves the context untouched (the function
is total — no exception). -/
theorem C7_resolve_alert_round_trip (ctx : UserContext) (aid : String)
    (now now' : Nat)
    (h1 : ctx.alerts.countP (fun a => decide (a.id = some aid)) = 1) :
    ∃ alerts',
      (resolve_alert ctx aid now).1.alerts = alerts' ∧
      (∃ msg, (resolve_alert ctx aid now).2 = Except.ok msg) ∧
      alerts'.length + 1 = ctx.alerts.length ∧
      alerts'.countP (fun a => decide (a.id = some aid)) = 0 ∧
      (∀ a ∈ ctx.alerts, a.id ≠ some aid → a ∈ alerts') ∧
      (resolve_alert (resolve_alert ctx aid now).1 aid now').1 =
        (resolve_alert ctx aid now).1 ∧
      (∃ msg, (resolve_alert (resolve_alert ctx aid now).1 aid now').2 =
        Except.error msg) := by
  obtain ⟨l', hrem, hlen, hcnt, hmem⟩ := removeFirstAlertById_of_countP_one
    ctx.alerts aid h1
  have hfirst : (resolve_alert ctx aid now).1.alerts = l' ∧
      (resolve_alert ctx aid now).2 =
        Except.ok ("Alert " ++ aid ++ " resolved successfully") := by
    unfold resolve_alert
    rw [hrem]
    exact ⟨rfl, rfl⟩
  have hnone : removeFirstAlertById (resolve_alert ctx aid now).1.alerts aid = none := by
    rw [hfirst.1]
    exact removeFirstAlertById_eq_none l' aid
      (by simpa [List.countP_eq_zero] using hcnt)
  have hsecond : resolve_alert (resolve_alert ctx aid now).1 aid now' =
      ((resolve_alert ctx aid now).1,
        Except.error ("Alert " ++ aid ++ " not found for user "
          ++ (resolve_alert ctx aid now).1.user_id)) := by
    generalize (resolve_alert ctx aid now).1 = ctx₁ at hnone ⊢
    unfold resolve_alert
    rw [hnone]
  refine ⟨l', hfirst.1, ⟨_, hfirst.2⟩, hlen, hcnt, hmem, ?_,
    ⟨"Alert " ++ aid ++ " not found for user "
      ++ (resolve_alert ctx aid now).1.user_id, ?_⟩⟩ <;>
    rw [hsecond]

/-- C7 witness: in `sampleAlertCtx` (two alerts, exactly one with id `a1`),
resolving `a1` succeeds and removes one alert; resolving `a1` again errors
and leaves the context unchanged. -/
theorem C7_witness :
    ∃ alerts',
      (resolve_alert sampleAlertCtx "a1" 10).1.alerts = alerts' ∧
      (∃ msg, (resolve_alert sampleAlertCtx "a1" 10).2 = Except.ok msg) ∧
      alerts'.length + 1 = sampleAlertCtx.alerts.length ∧
      alerts'.countP (fun a => decide (a.id = some "a1")) = 0 ∧
      (∀ a ∈ sampleAlertCtx.alerts, a.id ≠ some "a1" → a ∈ alerts') ∧
      (resolve_alert (resolve_alert sampleAlertCtx "a1" 10).1 "a1" 20).1 =
        (resolve_alert sampleAlertCtx "a1" 10).1 ∧
      (∃ msg, (resolve_alert (resolve_alert sampleAlertCtx "a1" 10).1 "a1" 20).2 =
        Except.error msg) :=
  C7_resolve_alert_round_trip sampleAlertCtx "a1" 10 20 (by decide)

/-! ## Claim C8 — two-tier alert severity boundaries -/

/-- C8 counterexample: a systolic reading of exactly 160 against the default
band (max 140) produces an **urgent** alert — the code tests
`systolic < 160` for warning, so the boundary value 160 is urgent even
though it is not *greater than* 160; the claim's "urgent exactly when
greater than 160" fails at 160 (and symmetrically `oxygen > 92` makes
oxygen 92 urgent, not warning). -/
theorem C8_counterexample :
    ((generate_health_alerts
        { blood_pressure_present := true
          current_systolic := some 160
          current_diastolic := some 80 } default_thresholds 0).map Alert.level
      = ["urgent"]) ∧
    ¬ (160:Int) > 160 ∧
    ((generate_health_alerts { oxygen := some 92 } default_thresholds 0).map
        Alert.level = ["urgent"]) ∧
    ¬ (92:Int) < 92 := by
  refine ⟨by decide, by decide, by decide, by decide⟩

/-- C8 (amended): a systolic breach above the max threshold is `"urgent"`
exactly when the value is **at least** 160 (else `"warning"`), and an oxygen
breach below the min threshold is `"urgent"` exactly when the value is **at
most** 92 (else `"warning"`).  The systolic statement is for an analysis
carrying a blood-pressure section whose diastolic value sits inside its own
(well-formed) band; the oxygen statement for an analysis carrying only an
oxygen section. -/
theorem C8_two_tier_severity (s dia o : Int) (t : Thresholds) (now : Nat)
    (hband : t.blood_pressure_systolic.min ≤ t.blood_pressure_systolic.max)
    (hs : s > t.blood_pressure_systolic.max) (hs0 : s ≠ 0)
    (hdlo : dia ≥ t.blood_pressure_diastolic.min)
    (hdhi : dia ≤ t.blood_pressure_diastolic.max) (hd0 : dia ≠ 0)
    (ho : o < t.oxygen.min) :
    (((generate_health_alerts
        { blood_pressure_present := true
          current_systolic := some s
          current_diastolic := some dia } t now).map Alert.level = ["urgent"]) ↔
      160 ≤ s) ∧
    (((generate_health_alerts
        { blood_pressure_present := true
          current_systolic := some s
          current_diastolic := some dia } t now).map Alert.level = ["warning"]) ↔
      s < 160) ∧
    (((generate_health_alerts { oxygen := some o } t now).map Alert.level
      = ["urgent"]) ↔ o ≤ 92) ∧
    (((generate_health_alerts { oxygen := some o } t now).map Alert.level
      = ["warning"]) ↔ 92 < o) := by
  have hnotlo : ¬ s < t.blood_pressure_systolic.min := by omega
  have hnotdlo : ¬ dia < t.blood_pressure_diastolic.min := by omega
  have hnotdhi : ¬ dia > t.blood_pressure_diastolic.max := by omega
  refine ⟨?_, ?_, ?_, ?_⟩ <;>
    simp [generate_health_alerts, truthyInt, hs0, hd0, hnotlo, hs, hnotdlo,
      hnotdhi, ho]

/-- C8 witness: with the default thresholds, systolic 185 (above max 140 and
at least 160) is urgent while systolic 150 is a warning; oxygen 91 (below min
95 and at most 92) is urgent while oxygen 94 is a warning. -/
theorem C8_witness :
    ((generate_health_alerts
        { blood_pressure_present := true
          current_systolic := some 185
          current_diastolic := some 80 } default_thresholds 0).map Alert.level
      = ["urgent"]) ∧
    ((generate_health_alerts { oxygen := some 91 } default_thresholds 0).map
        Alert.level = ["urgent"]) := by
  constructor
  · exact (C8_two_tier_severity 185 80 91 default_thresholds 0 (by decide)
      (by decide) (by decide) (by decide) (by decide) (by decide)
      (by decide)).1.mpr (by decide)
  · exact (C8_two_tier_severity 185 80 91 default_thresholds 0 (by decide)
      (by decide) (by decide) (by decide) (by decide) (by decide)
      (by decide)).2.2.1.mpr (by decide)

/-! ## Claim C9 — personalized threshold gating and safety clamps -/

/-- C9: personalized thresholds are the plain defaults when fewer than 5
historical health samples exist; with at least 5 samples, the personalized
heart-rate maximum is `min(int(mean + 15), 150)` — never above 150, and
exactly 150 for a historical mean of 200 — and the personalized oxygen
maximum is always 100. -/
theorem C9_personalized_thresholds (defaults : Thresholds) (history_len : Nat)
    (means : HealthMeans) :
    (history_len < 5 →
      calculate_personalized_thresholds defaults history_len means = defaults) ∧
    (5 ≤ history_len → ∀ m, means.heart_rate = some m →
      (calculate_personalized_thresholds defaults history_len means).heart_rate.max
        = min (pyInt (m + 15)) 150 ∧
      (calculate_personalized_thresholds defaults history_len means).heart_rate.max
        ≤ 150 ∧
      (m = 200 →
        (calculate_personalized_thresholds defaults history_len means).heart_rate.max
          = 150)) ∧
    (5 ≤ history_len → means.oxygen.isSome = true →
      (calculate_personalized_thresholds defaults history_len means).oxygen.max
        = 100) := by
  refine ⟨?_, ?_, ?_⟩
  · intro hlen
    unfold calculate_personalized_thresholds
    rw [if_neg (by omega)]
  · intro hlen m hm
    unfold calculate_personalized_thresholds
    rw [if_pos hlen]
    dsimp only
    rw [hm]
    refine ⟨rfl, min_le_right _ _, ?_⟩
    intro hm200
    subst hm200
    have : pyInt (200 + 15) = 215 := by
      unfold pyInt
      rw [if_pos (by norm_num)]
      norm_num
    simp [this]
  · intro hlen hoxy
    unfold calculate_personalized_thresholds
    rw [if_pos hlen]
    dsimp only
    obtain ⟨m, hm⟩ := Option.isSome_iff_exists.mp hoxy
    rw [hm]

/-- C9 witness: with 5 samples and a historical mean heart rate of 200 (and
an oxygen mean of 97), the personalized heart-rate max is exactly 150 and
the oxygen max is 100; with 4 samples everything stays at the defaults. -/
theorem C9_witness :
    (calculate_personalized_thresholds default_thresholds 5
        { heart_rate := some 200, oxygen := some 97 }).heart_rate.max = 150 ∧
    (calculate_personalized_thresholds default_thresholds 5
        { heart_rate := some 200, oxygen := some 97 }).oxygen.max = 100 ∧
    calculate_personalized_thresholds default_thresholds 4
        { heart_rate := some 200, oxygen := some 97 } = default_thresholds := by
  obtain ⟨-, h2, h3⟩ := C9_personalized_thresholds default_thresholds 5
    { heart_rate := some 200, oxygen := some 97 }
  obtain ⟨-, -, h200⟩ := h2 (by norm_num) 200 rfl
  refine ⟨h200 rfl, h3 (by norm_num) rfl, ?_⟩
  exact (C9_personalized_thresholds default_thresholds 4
    { heart_rate := some 200, oxygen := some 97 }).1 (by norm_num)

end CareCompanion
